import Mathlib

/-!
Shallow embedding of the voice-agent reasoning core
(src/voiceagent/curoser.py, with the simpler variant in
src/voiceagent/speechtotext.py), together with theorems settling the
frozen specification claims.

External effects (the speech-to-text service, the language-model
completion service, the subprocess spawned by run_command, the HTTP
weather endpoint, and the speech-synthesis stream) are modelled as
oracles: total functions packaged in a World value and threaded through
the embedded code.  Python exceptions that escape a function are
modelled with Except: a .error value propagates to the enclosing
handler exactly where the Python exception would.
-/

/-- A parsed JSON value, as produced by Python json parsing of the raw
model output.  Objects keep their fields as an ordered association
list; lookup is last-key-wins, matching Python dict construction. -/
inductive Json where
  | null : Json
  | bool : Bool → Json
  | num : Int → Json
  | str : String → Json
  | arr : List Json → Json
  | obj : List (String × Json) → Json

/-- Field lookup in a JSON object: the last binding of a duplicated key
wins, as in Python json parsing. -/
def getField (fields : List (String × Json)) (k : String) : Option Json :=
  (fields.reverse.find? (fun p => p.1 == k)).map Prod.snd

/-- The pydantic model StepModel of curoser.py: `step` is a required
string; `content`, `tool` and `input` are optional strings defaulting
to None.  (curoser.py lines 68-72.) -/
structure StepModel where
  step : String
  content : Option String
  tool : Option String
  input : Option String

/-- Validation of one optional-string field, as pydantic treats
`Optional[str] = None`: absent or JSON null becomes none, a JSON string
is kept, and any other JSON value is a validation error. -/
def validateOptStr (name : String) : Option Json → Except String (Option String)
  | none => Except.ok none
  | some Json.null => Except.ok none
  | some (Json.str s) => Except.ok (some s)
  | some _ => Except.error (name ++ ": Input should be a valid string")

/-- Validation of a parsed JSON value against StepModel: the input must
be an object, `step` must be present and a string, and the three
optional fields must be strings or null when present.  Extra fields are
ignored.  NOTE: no constraint is placed on the VALUE of `step`; the
literals plan/tool/output appear only in the pydantic Field description,
which pydantic does not enforce. -/
def StepModel.validate (j : Json) : Except String StepModel :=
  match j with
  | Json.obj fields =>
    match getField fields "step" with
    | some (Json.str s) =>
      match validateOptStr "content" (getField fields "content") with
      | Except.error e => Except.error e
      | Except.ok c =>
        match validateOptStr "tool" (getField fields "tool") with
        | Except.error e => Except.error e
        | Except.ok t =>
          match validateOptStr "input" (getField fields "input") with
          | Except.error e => Except.error e
          | Except.ok i => Except.ok (StepModel.mk s c t i)
    | some _ => Except.error "step: Input should be a valid string"
    | none => Except.error "step: Field required"
  | _ => Except.error "Input should be an object"

/-- `StepModel.model_validate_json` on the raw model output.  The raw
string either fails JSON decoding (modelled as `none`) or decodes to a
JSON value that is then validated against the schema.  An `.error`
result is the StepValidationError of the spec. -/
def model_validate_json : Option Json → Except String StepModel
  | none => Except.error "Invalid JSON"
  | some j => StepModel.validate j

/-- The raw output of one language-model call: the raw text (appended
verbatim to history as the assistant turn) together with the result of
JSON-decoding that text. -/
structure RawOutput where
  text : String
  json : Option Json

/-- Outcome of the subprocess run inside run_command:
check_output either returns the captured combined output, raises
CalledProcessError carrying the captured output (non-zero exit), or
raises some other exception. -/
inductive SubprocessResult where
  | success : String → SubprocessResult
  | calledProcessError : String → SubprocessResult
  | otherError : String → SubprocessResult

/-- Outcome of the HTTP GET inside get_weather: either a response with
a status code and body text, or a raised exception (network failure,
timeout, ...). -/
inductive HttpResult where
  | response : Nat → String → HttpResult
  | exn : String → HttpResult

/-- run_command of curoser.py (lines 74-83).  The entire body sits
inside try/except Exception, so it returns a string for every input and
every subprocess outcome: success returns the stripped captured output,
CalledProcessError returns the captured error output prefixed with
"Error executing command: ", any other exception returns its message
prefixed with "Error: ". -/
def run_command (res : SubprocessResult) : String :=
  match res with
  | SubprocessResult.success out => out.trim
  | SubprocessResult.calledProcessError out => "Error executing command: " ++ out
  | SubprocessResult.otherError msg => "Error: " ++ msg

/-- Python str.lower(): every character lower-cased. -/
def pyLower (s : String) : String :=
  (s.data.map Char.toLower).asString

/-- The URL built by get_weather (curoser.py line 86): the city name is
lower-cased into the path. -/
def get_weather_url (city : String) : String :=
  "https://wttr.in/" ++ pyLower city ++ "?format=%C+%t"

/-- get_weather of curoser.py (lines 85-93).  The URL construction
`city.lower()` happens BEFORE the try block: when the city argument is
absent (None), the attribute access raises AttributeError and the
exception escapes get_weather (modelled as `.error`).  For a string
city, everything else is inside try/except Exception: a 200 response
yields the weather sentence, any other status yields the fixed string
"Error: Could not get weather.", and a raised exception yields
"Error: " followed by the exception text. -/
def get_weather (city : Option String) (http : String → HttpResult) : Except String String :=
  match city with
  | none => Except.error "AttributeError: \x27NoneType\x27 object has no attribute \x27lower\x27"
  | some c =>
    match http (get_weather_url c) with
    | HttpResult.response status text =>
        if status = 200 then Except.ok ("The weather in " ++ c ++ " is " ++ text.trim)
        else Except.ok "Error: Could not get weather."
    | HttpResult.exn msg => Except.ok ("Error: " ++ msg)

/-- The names registered in available_tools (curoser.py lines 95-98). -/
def available_tools : List String := ["get_weather", "run_command"]

/-- The external world seen by the agent loop: the HTTP oracle (URL to
result), the subprocess oracle (command to outcome) and the synthesis
oracle (submitted text to the stream of byte chunks, each chunk a list
of bytes). -/
structure World where
  http : String → HttpResult
  subproc : Option String → SubprocessResult
  synth : String → List (List Nat)

/-- The registry lookup available_tools[name](tool_in) for a name known
to be registered. -/
def callTool (w : World) (name : String) (arg : Option String) : Except String String :=
  if name = "get_weather" then get_weather arg w.http
  else if name = "run_command" then Except.ok (run_command (w.subproc arg))
  else Except.ok "Error: Tool not found"

/-- Tool dispatch as performed by main (curoser.py lines 185-188):
`if tool_name in available_tools:` call it, `else` produce the literal
observation "Error: Tool not found".  An absent tool name (None) is not
a dict key, so it also takes the else branch. -/
def dispatch (w : World) (toolName toolIn : Option String) : Except String String :=
  match toolName with
  | some name =>
      if name ∈ available_tools then callTool w name toolIn
      else Except.ok "Error: Tool not found"
  | none => Except.ok "Error: Tool not found"

/-- Python character slicing s[:n]. -/
def pySlice (s : String) (n : Nat) : String :=
  (s.data.take n).asString

/-- One character escaped as json.dumps would escape it (quote,
backslash and the common control characters). -/
def jsonEscapeChar (c : Char) : String :=
  if c = '\"' then "\\\""
  else if c = '\\' then "\\\\"
  else if c = '\n' then "\\n"
  else if c = '\t' then "\\t"
  else if c = '\r' then "\\r"
  else String.singleton c

/-- json.dumps of a string value. -/
def jsonDumpsStr (s : String) : String :=
  "\"" ++ String.join (s.data.map jsonEscapeChar) ++ "\""

/-- json.dumps of the observation record appended after a tool runs
(curoser.py line 193). -/
def obsJson (obs : String) : String :=
  "\x7b\"step\": \"observe\", \"content\": " ++ jsonDumpsStr obs ++ "\x7d"

/-- What one call of the tts coroutine of curoser.py (lines 44-65) did:
the text actually submitted to the synthesis service (safe_speech) and
the byte chunks written to the audio player. -/
structure TtsRun where
  submitted : String
  played : List (List Nat)

/-- The chunk-writing loop of curoser.py tts (lines 56-62), with the
header_skipped flag threaded through: while the flag is false, the
first chunk LONGER than 44 bytes has its first 44 bytes dropped and the
flag becomes true; every other chunk is written unchanged. -/
def stripHeader : List (List Nat) → Bool → List (List Nat)
  | [], _ => []
  | c :: rest, skipped =>
    if skipped = false ∧ 44 < c.length then
      c.drop 44 :: stripHeader rest true
    else
      c :: stripHeader rest skipped

/-- The chunks played for a given synthesis response, in curoser.py tts
(header_skipped starts false). -/
def tts_played (chunks : List (List Nat)) : List (List Nat) :=
  stripHeader chunks false

/-- tts of curoser.py (lines 44-65).  `safe_speech = speech[:200]` runs
BEFORE the try block: when speech is None (an output Step with absent
content), the slice raises TypeError and the exception escapes tts
(modelled as `.error`).  For a string, the text submitted to synthesis
is the 200-character slice, and the response chunks are played with the
header-skipping loop; every failure inside the try is caught, so tts
returns normally for every string input. -/
def tts (speech : Option String) (synth : String → List (List Nat)) : Except String TtsRun :=
  match speech with
  | none => Except.error "TypeError: \x27NoneType\x27 object is not subscriptable"
  | some s =>
    let safe := pySlice s 200
    Except.ok (TtsRun.mk safe (tts_played (synth safe)))

/-- The chunk-writing loop of speechtotext.py tts (lines 52-54): every
non-empty chunk is written unchanged; no header is ever stripped. -/
def speechtotext_played (chunks : List (List Nat)) : List (List Nat) :=
  chunks.filter (fun c => !c.isEmpty)

/-- One entry of message_history. -/
structure Turn where
  role : String
  content : String

/-- The system prompt of curoser.py main (lines 102-120), verbatim
(a Python triple-quoted string, including its leading newline, inner
indentation and trailing indentation). -/
def SYSTEM_PROMPT : String :=
  "\n    You are a Voice AI Agent capable of executing tools."
  ++ "\n    You MUST respond with valid JSON that matches this structure:"
  ++ "\n    \x7b"
  ++ "\n      \"step\": \"plan\" | \"tool\" | \"output\","
  ++ "\n      \"content\": \"string\","
  ++ "\n      \"tool\": \"tool_name\", "
  ++ "\n      \"input\": \"tool_input\""
  ++ "\n    \x7d"
  ++ "\n"
  ++ "\n    Available Tools:"
  ++ "\n    - get_weather(city)"
  ++ "\n    - run_command(cmd) : Execute a shell command on the user\x27s computer."
  ++ "\n"
  ++ "\n    Rules:"
  ++ "\n    1. First, PLAN what to do."
  ++ "\n    2. If needed, use a TOOL."
  ++ "\n    3. Finally, provide an OUTPUT to speak to the user."
  ++ "\n    "

/-- The history created at startup (curoser.py line 125) and rebuilt by
the top-level error handler (line 216): the single system turn. -/
def initialHistory : List Turn :=
  [Turn.mk "system" SYSTEM_PROMPT]

/-- What one iteration of the inner reasoning loop (curoser.py lines
150-207) does with the raw output of one language-model call, given the
history that call saw. -/
inductive StepOutcome where
  /-- Validation succeeded and the loop continues reasoning: the new
  history is the assistant turn, plus an observation turn when a tool
  ran.  Covers the plan branch, the tool branch (dispatch succeeded)
  and a step value outside plan/tool/output (no branch taken). -/
  | continueLoop : List Turn → StepOutcome
  /-- StepModel validation failed: break out of the inner loop without
  appending anything (lines 161-165). -/
  | parseFail : StepOutcome
  /-- An output step was spoken: the final history and the tts run. -/
  | spoken : List Turn → TtsRun → StepOutcome
  /-- A Python exception escaped the loop body (get_weather with an
  absent city, or tts with absent content): it propagates to the
  top-level handler. -/
  | exn : String → StepOutcome

/-- One iteration of the inner reasoning loop of curoser.py main
(lines 150-207): validate the raw output; on success append the
assistant turn, lower-case the step value and branch. -/
def innerStep (w : World) (history : List Turn) (raw : RawOutput) : StepOutcome :=
  match model_validate_json raw.json with
  | Except.error _ => StepOutcome.parseFail
  | Except.ok parsed =>
    let h1 := history ++ [Turn.mk "assistant" raw.text]
    let st := pyLower parsed.step
    if st = "plan" then StepOutcome.continueLoop h1
    else if st = "tool" then
      match dispatch w parsed.tool parsed.input with
      | Except.error m => StepOutcome.exn m
      | Except.ok obs => StepOutcome.continueLoop (h1 ++ [Turn.mk "user" (obsJson obs)])
    else if st = "output" then
      match tts parsed.content w.synth with
      | Except.error m => StepOutcome.exn m
      | Except.ok r => StepOutcome.spoken h1 r
    else StepOutcome.continueLoop h1

/-- How one reasoning cycle ends, seen from the outer listening loop. -/
inductive CycleResult where
  /-- The inner loop broke (parse failure or spoken output): back to
  listening with this history. -/
  | toListening : List Turn → CycleResult
  /-- An exception escaped the inner loop: the top-level handler resets
  the history. -/
  | reset : CycleResult
  /-- The scripted list of model responses was exhausted while the loop
  still wanted another model call.  (The source loop is unbounded; this
  case only marks the end of a finite script.) -/
  | outOfResponses : List Turn → CycleResult

/-- The inner reasoning loop run on a finite script of language-model
responses: each iteration consumes one response against the current
history. -/
def runInner (w : World) : List Turn → List RawOutput → CycleResult
  | history, [] => CycleResult.outOfResponses history
  | history, raw :: rest =>
    match innerStep w history raw with
    | StepOutcome.parseFail => CycleResult.toListening history
    | StepOutcome.continueLoop h => runInner w h rest
    | StepOutcome.spoken h _ => CycleResult.toListening h
    | StepOutcome.exn _ => CycleResult.reset

/-- One pass of the outer listening loop (curoser.py lines 136-216),
from the handler's point of view. -/
inductive OuterEvent where
  /-- recognize_google raised UnknownValueError (line 209): nothing
  recognized. -/
  | silence : OuterEvent
  /-- recognize_google raised RequestError (line 211): the speech
  service is unreachable. -/
  | serviceError : OuterEvent
  /-- any other exception before the user turn was appended (listening,
  transcription, the model call itself). -/
  | otherExn : OuterEvent
  /-- a user utterance was transcribed and the reasoning cycle ran on
  the given script of model responses. -/
  | cycle : String → List RawOutput → OuterEvent

/-- One pass of the outer loop: silence and speech-service errors leave
the history untouched (lines 209-212); any other exception rebuilds the
history as the single system turn (lines 213-216); a transcribed
utterance appends the user turn and runs the reasoning cycle, whose
escaped exceptions also trigger the reset. -/
def outerStep (w : World) (history : List Turn) (ev : OuterEvent) : List Turn :=
  match ev with
  | OuterEvent.silence => history
  | OuterEvent.serviceError => history
  | OuterEvent.otherExn => initialHistory
  | OuterEvent.cycle q rs =>
    match runInner w (history ++ [Turn.mk "user" q]) rs with
    | CycleResult.toListening h => h
    | CycleResult.outOfResponses h => h
    | CycleResult.reset => initialHistory

/-- A concrete world for witnesses: the weather endpoint answers 200,
the subprocess succeeds, synthesis returns one long chunk. -/
def testWorld : World where
  http := fun _ => HttpResult.response 200 "Sunny +18°C"
  subproc := fun _ => SubprocessResult.success "ok"
  synth := fun _ => [List.replicate 100 0]

/-- Once the header_skipped flag is set, every remaining chunk is
written unchanged. -/
theorem stripHeader_of_skipped (chunks : List (List Nat)) :
    stripHeader chunks true = chunks := by
  induction chunks with
  | nil => rfl
  | cons c rest ih => simp [stripHeader, ih]

/-- When every chunk has at most 44 bytes, the loop writes the whole
response unchanged: no header is ever stripped. -/
theorem stripHeader_all_short (chunks : List (List Nat))
    (h : ∀ c ∈ chunks, c.length ≤ 44) :
    stripHeader chunks false = chunks := by
  induction chunks with
  | nil => rfl
  | cons c rest ih =>
      have hc : ¬ 44 < c.length := not_lt.mpr (h c (List.mem_cons_self c rest))
      simp only [stripHeader]
      rw [if_neg (by simp [hc]), ih (fun x hx => h x (List.mem_cons_of_mem c hx))]

/-- The loop drops the first 44 bytes of exactly the first chunk longer
than 44 bytes; chunks before it (all of length at most 44) and chunks
after it are written unchanged. -/
theorem stripHeader_first_long (pre : List (List Nat)) (c : List Nat)
    (post : List (List Nat)) (hpre : ∀ p ∈ pre, p.length ≤ 44)
    (hc : 44 < c.length) :
    stripHeader (pre ++ c :: post) false = pre ++ c.drop 44 :: post := by
  induction pre with
  | nil =>
      simp only [List.nil_append, stripHeader]
      rw [if_pos ⟨by trivial, hc⟩, stripHeader_of_skipped]
  | cons p pre ih =>
      have hp : ¬ 44 < p.length := not_lt.mpr (hpre p (List.mem_cons_self p pre))
      simp only [List.cons_append, stripHeader, List.append_eq]
      rw [if_neg (by simp [hp]), ih (fun x hx => hpre x (List.mem_cons_of_mem p hx))]

/-- The simpler tts of speechtotext.py never strips anything: every
played chunk is one of the response chunks, unchanged. -/
theorem speechtotext_played_unchanged (chunks : List (List Nat)) :
    ∀ c ∈ speechtotext_played chunks, c ∈ chunks := by
  intro c hc
  exact List.mem_of_mem_filter hc

/-- C6, counterexample: the claim says the 44-byte header is stripped
from the first data chunk and never from a subsequent chunk.  With a
first chunk of 1 byte and a second of 45 bytes, the code writes the
first chunk unchanged and strips 44 bytes from the SECOND chunk (the
header-skipped flag is only set by a chunk longer than 44 bytes). -/
theorem c6_counterexample :
    tts (some "hi") (fun _ => [[9], List.replicate 45 7])
      = Except.ok (TtsRun.mk "hi" [[9], [7]])
    ∧ ([7] : List Nat) ≠ List.replicate 45 7 :=
  ⟨rfl, by decide⟩

/-- C6, amended: in the agent's tts (curoser.py), the 44 bytes are
dropped from the first chunk of the response LONGER than 44 bytes and
never from any other chunk; any chunks before it (each of at most 44
bytes) are written unchanged, and when no chunk exceeds 44 bytes the
whole response is played unchanged. -/
theorem c6_header_strip (s : String) (synth : String → List (List Nat))
    (pre post : List (List Nat)) (c : List Nat)
    (hpre : ∀ p ∈ pre, p.length ≤ 44) (hc : 44 < c.length)
    (hresp : synth (pySlice s 200) = pre ++ c :: post) :
    (∃ r, tts (some s) synth = Except.ok r
      ∧ r.played = pre ++ c.drop 44 :: post)
    ∧ (∀ synth2 : String → List (List Nat),
        (∀ p ∈ synth2 (pySlice s 200), p.length ≤ 44) →
        ∃ r2, tts (some s) synth2 = Except.ok r2
          ∧ r2.played = synth2 (pySlice s 200)) := by
  constructor
  · refine ⟨_, rfl, ?_⟩
    show tts_played (synth (pySlice s 200)) = pre ++ c.drop 44 :: post
    rw [hresp]
    exact stripHeader_first_long pre c post hpre hc
  · intro synth2 h2
    refine ⟨_, rfl, ?_⟩
    exact stripHeader_all_short _ h2

/-- Witness for C6's amended theorem at a concrete input: a response of
a 2-byte chunk, then a 50-byte chunk, then a 1-byte chunk. -/
theorem c6_header_strip_witness :
    (∀ p ∈ [[1, 2]], List.length p ≤ 44)
    ∧ 44 < (List.replicate 50 5).length
    ∧ (fun _ : String => [[1, 2], List.replicate 50 5, [3]]) (pySlice "ok" 200)
        = [[1, 2]] ++ List.replicate 50 5 :: [[3]]
    ∧ ((∃ r, tts (some "ok") (fun _ => [[1, 2], List.replicate 50 5, [3]])
          = Except.ok r
        ∧ r.played = [[1, 2]] ++ (List.replicate 50 5).drop 44 :: [[3]])
      ∧ (∀ synth2 : String → List (List Nat),
          (∀ p ∈ synth2 (pySlice "ok" 200), p.length ≤ 44) →
          ∃ r2, tts (some "ok") synth2 = Except.ok r2
            ∧ r2.played = synth2 (pySlice "ok" 200))) :=
  ⟨by decide, by decide, rfl,
   c6_header_strip "ok" (fun _ => [[1, 2], List.replicate 50 5, [3]])
     [[1, 2]] [[3]] (List.replicate 50 5) (by decide) (by decide) rfl⟩

/-- C7, counterexample: the claim says every network exception yields a
fixed error string, the same regardless of the failure.  The code
interpolates the exception text: two different exceptions yield two
different strings, and neither is the fixed non-200 string. -/
theorem c7_counterexample :
    get_weather (some "Paris") (fun _ => HttpResult.exn "Connection timed out")
      = Except.ok "Error: Connection timed out"
    ∧ get_weather (some "Paris") (fun _ => HttpResult.exn "Name resolution failure")
      = Except.ok "Error: Name resolution failure"
    ∧ ("Error: Connection timed out" : String) ≠ "Error: Name resolution failure"
    ∧ ("Error: Connection timed out" : String) ≠ "Error: Could not get weather." :=
  ⟨rfl, rfl, by decide, by decide⟩

/-- C7, amended: get_weather issues its GET at a URL keyed by the
lower-cased city name (the result depends on the HTTP oracle only at
that URL, and two city spellings with the same case-folding give the
same URL); every non-200 response yields the fixed string
"Error: Could not get weather.", while a network exception yields
"Error: " followed by the exception's own text (so the string varies
with the failure). -/
theorem c7_weather_errors (city c2 text msg : String) (status : Nat)
    (http h2 httpA httpExn : String → HttpResult)
    (hagree : http (get_weather_url city) = h2 (get_weather_url city))
    (hfold : pyLower city = pyLower c2)
    (hr : httpA (get_weather_url city) = HttpResult.response status text)
    (hs : status ≠ 200)
    (he : httpExn (get_weather_url city) = HttpResult.exn msg) :
    get_weather (some city) http = get_weather (some city) h2
    ∧ get_weather_url city = get_weather_url c2
    ∧ get_weather (some city) httpA = Except.ok "Error: Could not get weather."
    ∧ get_weather (some city) httpExn = Except.ok ("Error: " ++ msg) := by
  refine ⟨?_, ?_, ?_, ?_⟩
  · simp only [get_weather, hagree]
  · simp only [get_weather_url, hfold]
  · simp only [get_weather, hr]
    rw [if_neg hs]
  · simp only [get_weather, he]

/-- Witness for C7's amended theorem at a concrete input: city "Lyon"
(also spelled "LYON"), a 404 response, and a timeout exception. -/
theorem c7_weather_errors_witness :
    (fun _ : String => HttpResult.response 503 "busy") (get_weather_url "Lyon")
      = (fun _ : String => HttpResult.response 503 "busy") (get_weather_url "Lyon")
    ∧ pyLower "Lyon" = pyLower "LYON"
    ∧ (fun _ : String => HttpResult.response 404 "not found") (get_weather_url "Lyon")
        = HttpResult.response 404 "not found"
    ∧ (404 : Nat) ≠ 200
    ∧ (fun _ : String => HttpResult.exn "timeout") (get_weather_url "Lyon")
        = HttpResult.exn "timeout"
    ∧ (get_weather (some "Lyon") (fun _ => HttpResult.response 503 "busy")
        = get_weather (some "Lyon") (fun _ => HttpResult.response 503 "busy")
      ∧ get_weather_url "Lyon" = get_weather_url "LYON"
      ∧ get_weather (some "Lyon") (fun _ => HttpResult.response 404 "not found")
          = Except.ok "Error: Could not get weather."
      ∧ get_weather (some "Lyon") (fun _ => HttpResult.exn "timeout")
          = Except.ok ("Error: " ++ "timeout")) :=
  ⟨rfl, by decide, rfl, by decide, rfl,
   c7_weather_errors "Lyon" "LYON" "not found" "timeout" 404
     (fun _ => HttpResult.response 503 "busy")
     (fun _ => HttpResult.response 503 "busy")
     (fun _ => HttpResult.response 404 "not found")
     (fun _ => HttpResult.exn "timeout")
     rfl (by decide) rfl (by decide) rfl⟩

/-- C8: the text submitted to the synthesis service is speech[:200]:
text longer than 200 characters is truncated to exactly its first 200
characters, and text of at most 200 characters is submitted
unchanged. -/
theorem c8_truncation (long s : String) (synth : String → List (List Nat))
    (hlong : 200 < long.length) (hshort : s.length ≤ 200) :
    (∃ r, tts (some long) synth = Except.ok r
      ∧ r.submitted.data = long.data.take 200
      ∧ r.submitted.length = 200)
    ∧ (∃ r, tts (some s) synth = Except.ok r ∧ r.submitted = s) := by
  constructor
  · refine ⟨_, rfl, rfl, ?_⟩
    show (long.data.take 200).length = 200
    rw [List.length_take]
    exact Nat.min_eq_left (Nat.le_of_lt hlong)
  · refine ⟨_, rfl, ?_⟩
    show (s.data.take 200).asString = s
    rw [List.take_of_length_le hshort]
    exact String.asString_toList s

set_option maxRecDepth 4000 in
/-- Witness for C8 at concrete inputs: a 201-character text and a
2-character text. -/
theorem c8_truncation_witness :
    200 < (String.mk (List.replicate 201 'a')).length
    ∧ ("hi" : String).length ≤ 200
    ∧ ((∃ r, tts (some (String.mk (List.replicate 201 'a'))) testWorld.synth
          = Except.ok r
        ∧ r.submitted.data = (String.mk (List.replicate 201 'a')).data.take 200
        ∧ r.submitted.length = 200)
      ∧ (∃ r, tts (some "hi") testWorld.synth = Except.ok r ∧ r.submitted = "hi")) :=
  ⟨by decide, by decide,
   c8_truncation (String.mk (List.replicate 201 'a')) "hi" testWorld.synth
     (by decide) (by decide)⟩

example : run_command (SubprocessResult.calledProcessError "boom") = "Error executing command: boom" := rfl

example : dispatch (World.mk (fun _ => HttpResult.exn "x") (fun _ => SubprocessResult.success "y") (fun _ => [])) (some "nope") none = Except.ok "Error: Tool not found" := rfl

example : model_validate_json (some (Json.obj [("step", Json.str "banana")])) = Except.ok (StepModel.mk "banana" none none none) := rfl

example : pySlice "hello" 3 = "hel" := rfl

/-- C1, counterexample: the claim says a JSON object whose `kind`
(`step` in the code) case-folds to none of plan/tool/output fails
validation with a StepValidationError.  In the code, StepModel only
constrains `step` to be a string: the raw output with step value
"banana" validates successfully, although "banana" is none of the three
values. -/
theorem c1_counterexample :
    model_validate_json (some (Json.obj [("step", Json.str "banana")]))
      = Except.ok (StepModel.mk "banana" none none none)
    ∧ pyLower "banana" ≠ "plan"
    ∧ pyLower "banana" ≠ "tool"
    ∧ pyLower "banana" ≠ "output" :=
  ⟨rfl, by decide, by decide, by decide⟩

/-- A field is acceptable to pydantic as `Optional[str] = None` when it
is absent, JSON null, or a JSON string. -/
abbrev okOptField (fields : List (String × Json)) (k : String) : Prop :=
  getField fields k = none ∨ getField fields k = some Json.null
    ∨ ∃ s, getField fields k = some (Json.str s)

/-- validateOptStr succeeds exactly on an absent field, JSON null, or a
JSON string. -/
theorem validateOptStr_ok_iff (name : String) (o : Option Json) :
    (∃ r, validateOptStr name o = Except.ok r)
      ↔ (o = none ∨ o = some Json.null ∨ ∃ s, o = some (Json.str s)) := by
  constructor
  · rintro ⟨r, hr⟩
    cases o with
    | none => exact Or.inl rfl
    | some jv =>
        cases jv with
        | null => exact Or.inr (Or.inl rfl)
        | str s => exact Or.inr (Or.inr ⟨s, rfl⟩)
        | bool b => exact absurd hr (by simp [validateOptStr])
        | num n => exact absurd hr (by simp [validateOptStr])
        | arr xs => exact absurd hr (by simp [validateOptStr])
        | obj fs => exact absurd hr (by simp [validateOptStr])
  · rintro (h | h | ⟨s, h⟩) <;> subst h
    · exact ⟨none, rfl⟩
    · exact ⟨none, rfl⟩
    · exact ⟨some s, rfl⟩

/-- C1, amended: the Step Parser fails with a StepValidationError
exactly when the raw output does not parse as JSON, is not a JSON
object, its `step` field is missing or not a string, or a present
`content`/`tool`/`input` field is neither a string nor JSON null; the
VALUE of a string `step` is never constrained, so a `kind` that
case-folds outside plan/tool/output still validates and is not a parse
failure — that case is handled later by the loop, and remains distinct
from a valid Step naming an unknown tool. -/
theorem c1_schema_types_only (j : Option Json) (s : String) :
    ((∃ m, model_validate_json j = Except.ok m)
      ↔ ∃ fields, j = some (Json.obj fields)
          ∧ (∃ v, getField fields "step" = some (Json.str v))
          ∧ okOptField fields "content"
          ∧ okOptField fields "tool"
          ∧ okOptField fields "input")
    ∧ model_validate_json (some (Json.obj [("step", Json.str s)]))
        = Except.ok (StepModel.mk s none none none) := by
  refine ⟨⟨?_, ?_⟩, rfl⟩
  · rintro ⟨m, hm⟩
    cases j with
    | none => exact absurd hm (by simp [model_validate_json])
    | some jv =>
        cases jv with
        | null => exact absurd hm (by simp [model_validate_json, StepModel.validate])
        | bool b => exact absurd hm (by simp [model_validate_json, StepModel.validate])
        | num n => exact absurd hm (by simp [model_validate_json, StepModel.validate])
        | str v => exact absurd hm (by simp [model_validate_json, StepModel.validate])
        | arr xs => exact absurd hm (by simp [model_validate_json, StepModel.validate])
        | obj fields =>
            simp only [model_validate_json, StepModel.validate] at hm
            cases hstep : getField fields "step" with
            | none => simp only [hstep] at hm; exact Except.noConfusion hm
            | some sv =>
                cases sv with
                | null => simp only [hstep] at hm; exact Except.noConfusion hm
                | bool b => simp only [hstep] at hm; exact Except.noConfusion hm
                | num n => simp only [hstep] at hm; exact Except.noConfusion hm
                | arr xs => simp only [hstep] at hm; exact Except.noConfusion hm
                | obj fs => simp only [hstep] at hm; exact Except.noConfusion hm
                | str v =>
                    simp only [hstep] at hm
                    cases hc : validateOptStr "content" (getField fields "content") with
                    | error e => simp only [hc] at hm; exact Except.noConfusion hm
                    | ok c =>
                        simp only [hc] at hm
                        cases ht : validateOptStr "tool" (getField fields "tool") with
                        | error e => simp only [ht] at hm; exact Except.noConfusion hm
                        | ok t =>
                            simp only [ht] at hm
                            cases hi : validateOptStr "input" (getField fields "input") with
                            | error e => simp only [hi] at hm; exact Except.noConfusion hm
                            | ok i =>
                                exact ⟨fields, rfl, ⟨v, hstep⟩,
                                  (validateOptStr_ok_iff "content" _).mp ⟨c, hc⟩,
                                  (validateOptStr_ok_iff "tool" _).mp ⟨t, ht⟩,
                                  (validateOptStr_ok_iff "input" _).mp ⟨i, hi⟩⟩
  · rintro ⟨fields, rfl, ⟨v, hstep⟩, hcont, htool, hinput⟩
    rcases (validateOptStr_ok_iff "content" (getField fields "content")).mpr hcont with ⟨c, hc⟩
    rcases (validateOptStr_ok_iff "tool" (getField fields "tool")).mpr htool with ⟨t, ht⟩
    rcases (validateOptStr_ok_iff "input" (getField fields "input")).mpr hinput with ⟨i, hi⟩
    exact ⟨StepModel.mk v c t i,
      by simp only [model_validate_json, StepModel.validate, hstep, hc, ht, hi]⟩

/-- Witness for C1's amended theorem at concrete inputs: an object with
a string `step` ("plan") but a numeric `content` fails validation,
while the one-field object with step value "banana" validates. -/
theorem c1_schema_types_only_witness :
    ¬ (∃ m, model_validate_json (some (Json.obj
        [("step", Json.str "plan"), ("content", Json.num 5)])) = Except.ok m)
    ∧ model_validate_json (some (Json.obj [("step", Json.str "banana")]))
        = Except.ok (StepModel.mk "banana" none none none) := by
  constructor
  · intro hm
    rcases (c1_schema_types_only (some (Json.obj
        [("step", Json.str "plan"), ("content", Json.num 5)])) "banana").1.mp hm with
      ⟨fields, hfields, hstep, hcont, htool, hinput⟩
    injection hfields with hf
    injection hf with hf2
    subst hf2
    simp only [okOptField] at hcont
    rw [show getField [("step", Json.str "plan"), ("content", Json.num 5)] "content"
          = some (Json.num 5) from rfl] at hcont
    rcases hcont with h | h | ⟨s2, h⟩ <;> simp at h
  · exact (c1_schema_types_only
      (some (Json.obj [("step", Json.str "banana")])) "banana").2

/-- C2, counterexample: the claim says every registry invocation, with
any input including an absent one, returns an observation string and
never propagates an exception.  A get_weather invocation with an absent
input raises AttributeError past the registry boundary, because
`city.lower()` in the URL construction runs before the try block. -/
theorem c2_counterexample :
    dispatch testWorld (some "get_weather") none
      = Except.error "AttributeError: \x27NoneType\x27 object has no attribute \x27lower\x27" :=
  rfl

/-- C2, amended: run_command returns an observation string for every
input and every subprocess outcome, and on non-zero exit the returned
string is "Error executing command: " followed by the captured error
output (so it contains that output); get_weather returns an observation
string for every present (string) city; only a get_weather invocation
with an absent input escapes the registry as an exception. -/
theorem c2_tool_observations (w : World) (cmd : Option String)
    (city out : String)
    (hnz : w.subproc cmd = SubprocessResult.calledProcessError out) :
    dispatch w (some "run_command") cmd
      = Except.ok ("Error executing command: " ++ out)
    ∧ (∀ w2 : World, ∃ s, dispatch w2 (some "run_command") cmd = Except.ok s)
    ∧ (∃ s, dispatch w (some "get_weather") (some city) = Except.ok s) := by
  refine ⟨?_, ?_, ?_⟩
  · simp only [dispatch, available_tools, callTool]
    norm_num
    simp [run_command, hnz]
  · intro w2
    exact ⟨run_command (w2.subproc cmd), by simp [dispatch, available_tools, callTool]⟩
  · simp only [dispatch, available_tools, callTool]
    norm_num
    simp only [get_weather]
    cases h : w.http (get_weather_url city) with
    | response status text =>
        simp only [h]
        by_cases h200 : status = 200
        · exact ⟨_, by rw [if_pos h200]⟩
        · exact ⟨_, by rw [if_neg h200]⟩
    | exn msg => exact ⟨"Error: " ++ msg, by simp only [h]⟩

/-- Witness for C2's amended theorem at a concrete input: a world whose
subprocess exits non-zero with captured output "ls: cannot access". -/
theorem c2_tool_observations_witness :
    (World.mk (fun _ => HttpResult.response 200 "Sunny")
        (fun _ => SubprocessResult.calledProcessError "ls: cannot access")
        (fun _ => [])).subproc (some "ls /nope")
      = SubprocessResult.calledProcessError "ls: cannot access"
    ∧ (dispatch (World.mk (fun _ => HttpResult.response 200 "Sunny")
          (fun _ => SubprocessResult.calledProcessError "ls: cannot access")
          (fun _ => [])) (some "run_command") (some "ls /nope")
        = Except.ok ("Error executing command: " ++ "ls: cannot access")
      ∧ (∀ w2 : World, ∃ s, dispatch w2 (some "run_command") (some "ls /nope") = Except.ok s)
      ∧ (∃ s, dispatch (World.mk (fun _ => HttpResult.response 200 "Sunny")
            (fun _ => SubprocessResult.calledProcessError "ls: cannot access")
            (fun _ => [])) (some "get_weather") (some "Paris") = Except.ok s)) :=
  ⟨rfl, c2_tool_observations _ _ "Paris" "ls: cannot access" rfl⟩

/-- C3: a validated tool Step whose tool name is not a registry key
(including an absent name) dispatches to exactly the observation
"Error: Tool not found" without raising, and the reasoning cycle
continues: the loop appends the assistant turn and the observation turn
and goes on reasoning. -/
theorem c3_unknown_tool (w : World) (history : List Turn)
    (raw : RawOutput) (parsed : StepModel)
    (hok : model_validate_json raw.json = Except.ok parsed)
    (hstep : pyLower parsed.step = "tool")
    (hn1 : parsed.tool ≠ some "get_weather")
    (hn2 : parsed.tool ≠ some "run_command") :
    dispatch w parsed.tool parsed.input = Except.ok "Error: Tool not found"
    ∧ innerStep w history raw
        = StepOutcome.continueLoop
            (history ++ [Turn.mk "assistant" raw.text,
                         Turn.mk "user" (obsJson "Error: Tool not found")]) := by
  have hdisp : dispatch w parsed.tool parsed.input = Except.ok "Error: Tool not found" := by
    cases htool : parsed.tool with
    | none => rfl
    | some name =>
        rw [htool] at hn1 hn2
        have hmem : name ∉ available_tools := by
          intro hmem
          simp only [available_tools, List.mem_cons, List.not_mem_nil, or_false] at hmem
          rcases hmem with h | h
          · exact hn1 (by rw [h])
          · exact hn2 (by rw [h])
        simp [dispatch, hmem]
  refine ⟨hdisp, ?_⟩
  simp only [innerStep, hok, hstep]
  norm_num
  rw [hdisp]
  simp

/-- A raw model output that is not valid JSON. -/
def unparseableRaw : RawOutput :=
  RawOutput.mk "I cannot answer in JSON" none

/-- A raw model output that validates as an output Step with absent
content. -/
def outputNoContentRaw : RawOutput :=
  RawOutput.mk "\x7b\"step\": \"output\"\x7d"
    (some (Json.obj [("step", Json.str "output")]))

/-- C4: when StepModel validation fails on the model's raw output, the
inner loop breaks without appending anything: the history is exactly
what it was before the failed model call, the remaining cycle is
abandoned (later scripted responses are never consumed), the loop
returns to listening, and the full history is not reset — after a
cycle whose first model call fails to parse, the history is the prior
history plus only the user turn. -/
theorem c4_parse_failure_preserves_history (w : World) (history : List Turn)
    (raw : RawOutput) (rest : List RawOutput) (e : String)
    (hfail : model_validate_json raw.json = Except.error e) :
    innerStep w history raw = StepOutcome.parseFail
    ∧ runInner w history (raw :: rest) = CycleResult.toListening history
    ∧ (∀ (h0 : List Turn) (q : String),
        outerStep w h0 (OuterEvent.cycle q (raw :: rest))
          = h0 ++ [Turn.mk "user" q]) := by
  have hstep : ∀ h : List Turn, innerStep w h raw = StepOutcome.parseFail := by
    intro h
    simp only [innerStep, hfail]
  refine ⟨hstep history, ?_, ?_⟩
  · simp only [runInner, hstep history]
  · intro h0 q
    simp only [outerStep, runInner, hstep]

/-- Witness for C4 at a concrete input: raw output that is not JSON,
arriving after a system turn and a user turn. -/
theorem c4_parse_failure_witness :
    model_validate_json unparseableRaw.json = Except.error "Invalid JSON"
    ∧ (innerStep testWorld initialHistory unparseableRaw = StepOutcome.parseFail
      ∧ runInner testWorld initialHistory [unparseableRaw, outputNoContentRaw]
          = CycleResult.toListening initialHistory
      ∧ (∀ (h0 : List Turn) (q : String),
          outerStep testWorld h0
              (OuterEvent.cycle q [unparseableRaw, outputNoContentRaw])
            = h0 ++ [Turn.mk "user" q])) :=
  ⟨rfl, c4_parse_failure_preserves_history testWorld initialHistory
    unparseableRaw [outputNoContentRaw] "Invalid JSON" rfl⟩

/-- C5: the top-level handler of the outer loop distinguishes three
failure classes: transcription silence and speech-service failure leave
the history untouched, while any other exception (including one that
escapes the reasoning cycle) rebuilds the history as exactly the
original single system turn, and the loop goes back to listening. -/
theorem c5_error_reset (w : World) (history h0 : List Turn) (q : String)
    (rs : List RawOutput)
    (hreset : runInner w (h0 ++ [Turn.mk "user" q]) rs = CycleResult.reset) :
    outerStep w history OuterEvent.otherExn = initialHistory
    ∧ outerStep w history OuterEvent.silence = history
    ∧ outerStep w history OuterEvent.serviceError = history
    ∧ outerStep w h0 (OuterEvent.cycle q rs) = initialHistory
    ∧ initialHistory = [Turn.mk "system" SYSTEM_PROMPT] := by
  refine ⟨rfl, rfl, rfl, ?_, rfl⟩
  simp only [outerStep, hreset]

/-- Witness for C5 at a concrete input: an output Step with absent
content makes the speech step raise, leaving the cycle as reset. -/
theorem c5_error_reset_witness :
    runInner testWorld ([Turn.mk "user" "earlier"] ++ [Turn.mk "user" "hi"])
        [outputNoContentRaw] = CycleResult.reset
    ∧ (outerStep testWorld [Turn.mk "user" "earlier"] OuterEvent.otherExn = initialHistory
      ∧ outerStep testWorld [Turn.mk "user" "earlier"] OuterEvent.silence
          = [Turn.mk "user" "earlier"]
      ∧ outerStep testWorld [Turn.mk "user" "earlier"] OuterEvent.serviceError
          = [Turn.mk "user" "earlier"]
      ∧ outerStep testWorld [Turn.mk "user" "earlier"]
          (OuterEvent.cycle "hi" [outputNoContentRaw]) = initialHistory
      ∧ initialHistory = [Turn.mk "system" SYSTEM_PROMPT]) :=
  ⟨rfl, c5_error_reset testWorld [Turn.mk "user" "earlier"]
    [Turn.mk "user" "earlier"] "hi" [outputNoContentRaw] rfl⟩

/-- C9: raw output that validates but whose case-folded step value is
none of plan/tool/output: the loop appends the assistant turn (the raw
serialization) and silently keeps reasoning — the next scripted model
response is consumed against the grown history; no error is raised, no
tool is dispatched, nothing is spoken for that step. -/
theorem c9_stray_step_silently_continues (w : World) (history : List Turn)
    (raw : RawOutput) (rest : List RawOutput) (parsed : StepModel)
    (hok : model_validate_json raw.json = Except.ok parsed)
    (hp : pyLower parsed.step ≠ "plan")
    (ht : pyLower parsed.step ≠ "tool")
    (ho : pyLower parsed.step ≠ "output") :
    innerStep w history raw
      = StepOutcome.continueLoop (history ++ [Turn.mk "assistant" raw.text])
    ∧ runInner w history (raw :: rest)
      = runInner w (history ++ [Turn.mk "assistant" raw.text]) rest := by
  have hstep : innerStep w history raw
      = StepOutcome.continueLoop (history ++ [Turn.mk "assistant" raw.text]) := by
    simp only [innerStep, hok]
    rw [if_neg hp, if_neg ht, if_neg ho]
  exact ⟨hstep, by simp only [runInner, hstep]⟩

/-- Witness for C9 at a concrete input: the model emits a step value
"observe" (outside the three handled values). -/
theorem c9_stray_step_witness :
    model_validate_json (RawOutput.mk "\x7b\"step\": \"observe\"\x7d"
        (some (Json.obj [("step", Json.str "observe")]))).json
      = Except.ok (StepModel.mk "observe" none none none)
    ∧ pyLower (StepModel.mk "observe" none none none).step ≠ "plan"
    ∧ pyLower (StepModel.mk "observe" none none none).step ≠ "tool"
    ∧ pyLower (StepModel.mk "observe" none none none).step ≠ "output"
    ∧ (innerStep testWorld initialHistory
          (RawOutput.mk "\x7b\"step\": \"observe\"\x7d"
            (some (Json.obj [("step", Json.str "observe")])))
        = StepOutcome.continueLoop
            (initialHistory ++ [Turn.mk "assistant" "\x7b\"step\": \"observe\"\x7d"])
      ∧ runInner testWorld initialHistory
          [RawOutput.mk "\x7b\"step\": \"observe\"\x7d"
            (some (Json.obj [("step", Json.str "observe")]))]
        = runInner testWorld
            (initialHistory ++ [Turn.mk "assistant" "\x7b\"step\": \"observe\"\x7d"]) []) :=
  ⟨rfl, by decide, by decide, by decide,
   c9_stray_step_silently_continues testWorld initialHistory _ [] _
     rfl (by decide) (by decide) (by decide)⟩

/-- C10: a validated output Step with absent content: the character
slice in tts runs before its try block, so tts raises without ever
consulting the synthesis service (no audio for that cycle), the inner
loop ends in an escaped exception, and the top-level handler resets the
history to the single system turn. -/
theorem c10_absent_content_resets (w : World) (history : List Turn)
    (raw : RawOutput) (rest : List RawOutput) (parsed : StepModel)
    (hok : model_validate_json raw.json = Except.ok parsed)
    (hstep : pyLower parsed.step = "output")
    (hc : parsed.content = none) :
    (∀ synth : String → List (List Nat),
      tts none synth
        = Except.error "TypeError: \x27NoneType\x27 object is not subscriptable")
    ∧ (∃ m, innerStep w history raw = StepOutcome.exn m)
    ∧ runInner w history (raw :: rest) = CycleResult.reset
    ∧ (∀ (h0 : List Turn) (q : String),
        outerStep w h0 (OuterEvent.cycle q (raw :: rest)) = initialHistory) := by
  have hinner : ∀ h : List Turn, innerStep w h raw
      = StepOutcome.exn "TypeError: \x27NoneType\x27 object is not subscriptable" := by
    intro h
    simp only [innerStep, hok, hstep, hc, tts]
    rw [if_neg (by decide : ¬("output" : String) = "plan"),
        if_neg (by decide : ¬("output" : String) = "tool")]
    simp
  refine ⟨fun _ => rfl, ⟨_, hinner history⟩, ?_, ?_⟩
  · simp only [runInner, hinner]
  · intro h0 q
    simp only [outerStep, runInner, hinner]

/-- Witness for C10 at a concrete input: the model emits
an output Step with no content field. -/
theorem c10_absent_content_witness :
    model_validate_json outputNoContentRaw.json
      = Except.ok (StepModel.mk "output" none none none)
    ∧ pyLower (StepModel.mk "output" none none none).step = "output"
    ∧ (StepModel.mk "output" none none none).content = none
    ∧ ((∀ synth : String → List (List Nat),
          tts none synth
            = Except.error "TypeError: \x27NoneType\x27 object is not subscriptable")
      ∧ (∃ m, innerStep testWorld initialHistory outputNoContentRaw = StepOutcome.exn m)
      ∧ runInner testWorld initialHistory [outputNoContentRaw] = CycleResult.reset
      ∧ (∀ (h0 : List Turn) (q : String),
          outerStep testWorld h0 (OuterEvent.cycle q [outputNoContentRaw])
            = initialHistory)) :=
  ⟨rfl, by decide, rfl,
   c10_absent_content_resets testWorld initialHistory outputNoContentRaw [] _
     rfl (by decide) rfl⟩

/-- Witness for C3 at a concrete input: the model asks for the
unregistered tool "open_browser". -/
theorem c3_unknown_tool_witness :
    model_validate_json (RawOutput.mk
        "\x7b\"step\": \"tool\", \"tool\": \"open_browser\"\x7d"
        (some (Json.obj [("step", Json.str "tool"), ("tool", Json.str "open_browser")]))).json
      = Except.ok (StepModel.mk "tool" none (some "open_browser") none)
    ∧ pyLower (StepModel.mk "tool" none (some "open_browser") none).step = "tool"
    ∧ (dispatch testWorld (StepModel.mk "tool" none (some "open_browser") none).tool
          (StepModel.mk "tool" none (some "open_browser") none).input
        = Except.ok "Error: Tool not found"
      ∧ innerStep testWorld [] (RawOutput.mk
            "\x7b\"step\": \"tool\", \"tool\": \"open_browser\"\x7d"
            (some (Json.obj [("step", Json.str "tool"), ("tool", Json.str "open_browser")])))
        = StepOutcome.continueLoop
            ([] ++ [Turn.mk "assistant" "\x7b\"step\": \"tool\", \"tool\": \"open_browser\"\x7d",
                    Turn.mk "user" (obsJson "Error: Tool not found")])) :=
  ⟨rfl, by decide,
   c3_unknown_tool testWorld [] _ _ rfl (by decide) (by decide) (by decide)⟩
